import Mathlib

/-!
Verification of the query subsystem of the iommi repository (spec.md sections
2-8): variable schema, advanced-query lexer and parser, value coercion,
AST-to-backend-predicate lowering, the simple-form compiler and the
`to_query_string` reserialization.

The module `iommi/query.py` itself is not present under `src/` (only its test
suite `src/tests/test_query.py` and the vendored form library
`src/lib/tri/form/__init__.py` are), so the query subsystem is modelled from
the specification, with every behavioural point that the repository's own
tests pin down (default operators, error messages, the freetext atom, the
null collapse) noted next to the definition it fixes.  The form-level value
parsers (`bool_parse`, `Field.date`, `Field.datetime`) ARE present in
`src/lib/tri/form/__init__.py` and are embedded from that source.
-/

deriving instance DecidableEq for Except

namespace Iommi

/-- Variable kinds (spec section 3, Variable.kind).  `substring`, `email`,
`url` and the case-sensitive-string kind of the spec are represented by
`string` plus the per-variable `caseSensitive` flag (spec section 9: case
sensitivity is a per-variable flag, not a separate kind). -/
inductive Kind where
  | string
  | integer
  | float
  | boolean
  | date
  | datetime
  | choice
  | choiceSet
  | reference
deriving DecidableEq, Repr

/-- Backend predicate operators (spec section 6: the `op` of a Predicate
leaf).  `iexact`/`exact`, `icontains`/`contains` are the case-insensitive /
case-sensitive equality and containment pairs of the lowering table in spec
section 4.5; the names follow the Django lookups asserted by the tests. -/
inductive QOp where
  | iexact
  | exact
  | icontains
  | contains
  | lt
  | lte
  | gt
  | gte
deriving DecidableEq, Repr

/-- Coerced values (spec section 3, Value).  `vref a` is a reference to the
backend column `a` of another variable (the `F` object of
`test_self_reference_with_f_object`); `vnum` keeps the numeric literal text
as lexed. -/
inductive Value where
  | vstr (s : String)
  | vnum (s : String)
  | vint (n : Int)
  | vbool (b : Bool)
  | vnull
  | vdate (y m d : Nat)
  | vdatetime (y m d hh mm ss : Nat)
  | vref (attr : String)
deriving DecidableEq, Repr

/-- Backend predicate tree (spec section 6).  A leaf carries the attribute
path, an optional backend operator (`none` means a direct equality lookup
with no operator suffix, used for the null comparison `Q(foo=None)` of
`test_null`) and the coerced value.  `tt` is the identity / universal
predicate (`Q()`). -/
inductive Pred where
  | tt
  | leaf (attr : String) (op : Option QOp) (v : Value)
  | and (p q : Pred)
  | or (p q : Pred)
  | not (p : Pred)
deriving DecidableEq, Repr

/-- Variable schema entry (spec section 3).  `attr := none` marks a
decorative variable whose leaves are dropped at lowering
(`test_none_attr`). -/
structure Variable where
  name : String
  attr : Option String
  kind : Kind := .string
  caseSensitive : Bool := false
  freetext : Bool := false
  formIncluded : Bool := false
  choices : List String := []
deriving DecidableEq, Repr

/-- Tokens of the advanced query language (spec section 4.1). -/
inductive Token where
  | ident (s : String)
  | str (s : String)
  | num (s : String)
  | date (y m d : Nat)
  | kand
  | kor
  | knot
  | knull
  | lparen
  | rparen
  | op (s : String)
deriving DecidableEq, Repr

/-- Parser output (spec section 4.2): boolean combinators over comparisons.
`freetext s` is the bare-string atom attested by `test_freetext`: a quoted
string with no identifier/operator parses to the freetext OR-group. -/
inductive Ast where
  | cmp (name : String) (opName : String) (v : Token)
  | and (a b : Ast)
  | or (a b : Ast)
  | not (a : Ast)
  | freetext (s : String)
deriving DecidableEq, Repr

/-! ## Lexer (spec section 4.1) -/

def isIdentStart (c : Char) : Bool := c.isAlpha || c = '_'

def isIdentChar (c : Char) : Bool := c.isAlphanum || c = '_'

/-- Longest digit run at the head of the input. -/
def takeDigits : List Char → List Char × List Char
  | [] => ([], [])
  | c :: cs =>
    if c.isDigit then
      let (d, r) := takeDigits cs
      (c :: d, r)
    else ([], c :: cs)

/-- Longest identifier-character run at the head of the input. -/
def takeIdentChars : List Char → List Char × List Char
  | [] => ([], [])
  | c :: cs =>
    if isIdentChar c then
      let (d, r) := takeIdentChars cs
      (c :: d, r)
    else ([], c :: cs)

def digitsToNat (ds : List Char) : Nat :=
  ds.foldl (fun n c => 10 * n + (c.toNat - 48)) 0

/-- Scan the body of a double-quoted string literal, the opening quote
already consumed.  `\"` yields a quote, `\\` a backslash; the spec admits no
other escapes (section 4.1), and an unterminated literal is a lex error. -/
def scanQuoted : List Char → Option (List Char × List Char)
  | [] => none
  | c :: cs =>
    if c = '"' then some ([], cs)
    else if c = '\\' then
      match cs with
      | [] => none
      | e :: cs2 =>
        if e = '"' ∨ e = '\\' then (fun p => (e :: p.1, p.2)) <$> scanQuoted cs2
        else none
    else (fun p => (c :: p.1, p.2)) <$> scanQuoted cs

/-- After a leading digit run `d1`, either continue into a fractional part
(numeric literals are digits with an optional `.digits`, spec section 4.1)
or emit the integer literal. -/
def numAfterDigits (d1 : List Char) (r : List Char) : Token × List Char :=
  match r with
  | '.' :: r2 =>
    let (d2, r3) := takeDigits r2
    (.num (String.mk (d1 ++ '.' :: d2)), r3)
  | _ => (.num (String.mk d1), r)

/-- Lex a token starting with a digit: a date literal `YYYY-MM-DD` (spec
section 4.1; one- or two-digit month and day fields, matching the
`\d{4}-\d{1,2}-\d{1,2}` shape) when the shape fits, otherwise a numeric
literal.  Range validation of the date fields happens at lowering, which is
how the out-of-range day of `test_date_out_of_range` is reported. -/
def lexNumDate (cs : List Char) : Token × List Char :=
  let (d1, r1) := takeDigits cs
  if d1.length = 4 then
    match r1 with
    | '-' :: r2 =>
      let (d2, r3) := takeDigits r2
      if d2.length = 1 ∨ d2.length = 2 then
        match r3 with
        | '-' :: r4 =>
          let (d3, r5) := takeDigits r4
          if d3.length = 1 ∨ d3.length = 2 then
            (.date (digitsToNat d1) (digitsToNat d2) (digitsToNat d3), r5)
          else numAfterDigits d1 r1
        | _ => numAfterDigits d1 r1
      else numAfterDigits d1 r1
    | _ => numAfterDigits d1 r1
  else numAfterDigits d1 r1

/-- One token per step; fuel bounds the number of steps (one unit per
emitted token or skipped space, so `length + 1` always suffices).  Reserved
lowercase words `and` / `or` / `not` / `null` become keyword tokens (spec
section 4.1); operators are matched longest first. -/
def lexLoop : Nat → List Char → Option (List Token)
  | _, [] => some []
  | 0, _ :: _ => none
  | f + 1, c :: cs =>
    if c = ' ' ∨ c = '\t' ∨ c = '\n' ∨ c = '\r' then lexLoop f cs
    else if c = '(' then (Token.lparen :: ·) <$> lexLoop f cs
    else if c = ')' then (Token.rparen :: ·) <$> lexLoop f cs
    else if c = '"' then
      match scanQuoted cs with
      | some (s, rest) => (Token.str (String.mk s) :: ·) <$> lexLoop f rest
      | none => none
    else if c = '!' then
      match cs with
      | '=' :: cs2 => (Token.op "!=" :: ·) <$> lexLoop f cs2
      | ':' :: cs2 => (Token.op "!:" :: ·) <$> lexLoop f cs2
      | _ => none
    else if c = '<' then
      match cs with
      | '=' :: cs2 => (Token.op "<=" :: ·) <$> lexLoop f cs2
      | _ => (Token.op "<" :: ·) <$> lexLoop f cs
    else if c = '>' then
      match cs with
      | '=' :: cs2 => (Token.op ">=" :: ·) <$> lexLoop f cs2
      | _ => (Token.op ">" :: ·) <$> lexLoop f cs
    else if c = '=' then
      match cs with
      | '<' :: cs2 => (Token.op "=<" :: ·) <$> lexLoop f cs2
      | '>' :: cs2 => (Token.op "=>" :: ·) <$> lexLoop f cs2
      | _ => (Token.op "=" :: ·) <$> lexLoop f cs
    else if c = ':' then (Token.op ":" :: ·) <$> lexLoop f cs
    else if c.isDigit then
      let (t, rest) := lexNumDate (c :: cs)
      (t :: ·) <$> lexLoop f rest
    else if c = '+' ∨ c = '-' then
      match cs with
      | d :: _ =>
        if d.isDigit then
          match lexNumDate cs with
          | (Token.num s, rest) => (Token.num (String.mk [c] ++ s) :: ·) <$> lexLoop f rest
          | _ => none
        else none
      | [] => none
    else if isIdentStart c then
      let (id, rest) := takeIdentChars cs
      let w := String.mk (c :: id)
      let t :=
        if w = "and" then Token.kand
        else if w = "or" then Token.kor
        else if w = "not" then Token.knot
        else if w = "null" then Token.knull
        else Token.ident w
      (t :: ·) <$> lexLoop f rest
    else none

def lex (s : String) : Option (List Token) :=
  lexLoop (s.data.length + 1) s.data

/-! ## Parser (spec section 4.2)

Operator-precedence grammar: `expr := or_expr`;
`or_expr := and_expr (or and_expr)*`; `and_expr := not_expr (and not_expr)*`;
`not_expr := not not_expr | atom`; `atom := ( expr ) | comparison | string`;
`comparison := ident op value`.  Logical operators are left-associative, and
binds tighter than or, parentheses override.  The bare-string atom is the
freetext production attested by `test_freetext`.  Each function threads fuel
(any grammar derivation for `n` tokens takes well under `4n + 8` steps). -/

def isValueTok : Token → Bool
  | .ident _ => true
  | .str _ => true
  | .num _ => true
  | .date _ _ _ => true
  | .knull => true
  | _ => false

mutual

def parseOrE : Nat → List Token → Option (Ast × List Token)
  | 0, _ => none
  | f + 1, toks =>
    match parseAndE f toks with
    | some (a, r) => parseOrTail f a r
    | none => none

def parseOrTail : Nat → Ast → List Token → Option (Ast × List Token)
  | 0, _, _ => none
  | f + 1, a, toks =>
    match toks with
    | .kor :: rest =>
      match parseAndE f rest with
      | some (b, r) => parseOrTail f (.or a b) r
      | none => none
    | _ => some (a, toks)

def parseAndE : Nat → List Token → Option (Ast × List Token)
  | 0, _ => none
  | f + 1, toks =>
    match parseNotE f toks with
    | some (a, r) => parseAndTail f a r
    | none => none

def parseAndTail : Nat → Ast → List Token → Option (Ast × List Token)
  | 0, _, _ => none
  | f + 1, a, toks =>
    match toks with
    | .kand :: rest =>
      match parseNotE f rest with
      | some (b, r) => parseAndTail f (.and a b) r
      | none => none
    | _ => some (a, toks)

def parseNotE : Nat → List Token → Option (Ast × List Token)
  | 0, _ => none
  | f + 1, .knot :: rest => (fun p => (Ast.not p.1, p.2)) <$> parseNotE f rest
  | f + 1, toks => parseAtomE f toks

def parseAtomE : Nat → List Token → Option (Ast × List Token)
  | 0, _ => none
  | f + 1, .lparen :: rest =>
    (match parseOrE f rest with
     | some (a, r) =>
       match r with
       | .rparen :: r2 => some (a, r2)
       | _ => none
     | none => none)
  | _ + 1, .str s :: rest => some (.freetext s, rest)
  | _ + 1, .ident n :: .op o :: v :: rest =>
    if isValueTok v then some (.cmp n o v, rest) else none
  | _, _ => none

end

/-- Parse a complete token stream; all tokens must be consumed. -/
def parseTokens (toks : List Token) : Option Ast :=
  match parseOrE (4 * toks.length + 8) toks with
  | some (a, []) => some a
  | _ => none

/-! ## Form-level value parsers

These are embedded from `src/lib/tri/form/__init__.py`, which IS in the
source tree: `bool_parse` (lines 41-48), `Field.date` (lines 348-356, a
single `datetime.strptime(value, %Y-%m-%d)` call whose `ValueError` message
is re-raised verbatim) and `Field.datetime` (lines 338-346, the single
format `%Y-%m-%d %H:%M:%S`).  The strptime format directives are modelled
after the CPython `_strptime` regex fragments for `%Y` (four digits), `%m`
(`1[0-2]|0[1-9]|[1-9]`), `%d` (`3[01]|[12]\d|0[1-9]|[1-9]`), `%H`
(`2[0-3]|[0-1]\d|\d`) and `%M`/`%S` (`[0-5]\d|\d`), with the leftover-input
check (`unconverted data remains`) and the calendar range check of the
`date`/`datetime` constructors (`day is out of range for month`).  CPython
renders the unmatched-data message with apostrophes around the value; this
model uses double quotes, which no claim depends on. -/

/-- ASCII lower-casing (the `.lower()` call of `bool_parse`). -/
def lowerChar (c : Char) : Char :=
  if 'A' ≤ c ∧ c ≤ 'Z' then Char.ofNat (c.toNat + 32) else c

def strLower (s : String) : String :=
  String.mk (s.data.map lowerChar)

def bool_parse (s : String) : Except String Bool :=
  let l := strLower s
  if l ∈ ["1", "true", "t", "yes", "y", "on"] then .ok true
  else if l ∈ ["0", "false", "f", "no", "n", "off"] then .ok false
  else .error (s ++ " is not a valid boolean value")

def isLeap (y : Nat) : Bool :=
  (y % 4 = 0 && y % 100 != 0) || y % 400 = 0

def daysInMonth (y m : Nat) : Nat :=
  if m = 2 then (if isLeap y then 29 else 28)
  else if m = 4 ∨ m = 6 ∨ m = 9 ∨ m = 11 then 30
  else 31

/-- The `%m` directive: `1[0-2] | 0[1-9] | [1-9]`, alternatives in order. -/
def matchMonth : List Char → Option (Nat × List Char)
  | c1 :: c2 :: rest =>
    if c1 = '1' ∧ (c2 = '0' ∨ c2 = '1' ∨ c2 = '2') then some (digitsToNat [c1, c2], rest)
    else if c1 = '0' ∧ c2.isDigit ∧ c2 ≠ '0' then some (digitsToNat [c1, c2], rest)
    else if c1.isDigit ∧ c1 ≠ '0' then some (digitsToNat [c1], c2 :: rest)
    else none
  | [c1] =>
    if c1.isDigit ∧ c1 ≠ '0' then some (digitsToNat [c1], []) else none
  | [] => none

/-- The `%d` directive: `3[01] | [12]\d | 0[1-9] | [1-9]`. -/
def matchDay : List Char → Option (Nat × List Char)
  | c1 :: c2 :: rest =>
    if c1 = '3' ∧ (c2 = '0' ∨ c2 = '1') then some (digitsToNat [c1, c2], rest)
    else if (c1 = '1' ∨ c1 = '2') ∧ c2.isDigit then some (digitsToNat [c1, c2], rest)
    else if c1 = '0' ∧ c2.isDigit ∧ c2 ≠ '0' then some (digitsToNat [c1, c2], rest)
    else if c1.isDigit ∧ c1 ≠ '0' then some (digitsToNat [c1], c2 :: rest)
    else none
  | [c1] =>
    if c1.isDigit ∧ c1 ≠ '0' then some (digitsToNat [c1], []) else none
  | [] => none

/-- The `%H` directive: `2[0-3] | [0-1]\d | \d`. -/
def matchHour : List Char → Option (Nat × List Char)
  | c1 :: c2 :: rest =>
    if c1 = '2' ∧ (c2 = '0' ∨ c2 = '1' ∨ c2 = '2' ∨ c2 = '3') then some (digitsToNat [c1, c2], rest)
    else if (c1 = '0' ∨ c1 = '1') ∧ c2.isDigit then some (digitsToNat [c1, c2], rest)
    else if c1.isDigit then some (digitsToNat [c1], c2 :: rest)
    else none
  | [c1] => if c1.isDigit then some (digitsToNat [c1], []) else none
  | [] => none

/-- The `%M` and `%S` directives: `[0-5]\d | \d`. -/
def matchMinSec : List Char → Option (Nat × List Char)
  | c1 :: c2 :: rest =>
    if c1.isDigit ∧ c1 ≤ '5' ∧ c2.isDigit then some (digitsToNat [c1, c2], rest)
    else if c1.isDigit then some (digitsToNat [c1], c2 :: rest)
    else none
  | [c1] => if c1.isDigit then some (digitsToNat [c1], []) else none
  | [] => none

/-- `datetime.strptime(s, %Y-%m-%d)`: the regex match, then the
leftover-input check.  The calendar range check of `.date()` is layered on
top in `form_parse_date`. -/
def strptime_date (s : String) : Except String (Nat × Nat × Nat) :=
  let fail : Except String (Nat × Nat × Nat) :=
    .error ("time data \"" ++ s ++ "\" does not match format \"%Y-%m-%d\"")
  match s.data with
  | y1 :: y2 :: y3 :: y4 :: '-' :: rest =>
    if y1.isDigit ∧ y2.isDigit ∧ y3.isDigit ∧ y4.isDigit then
      match matchMonth rest with
      | some (m, rest2) =>
        match rest2 with
        | '-' :: rest3 =>
          match matchDay rest3 with
          | some (d, rest4) =>
            if rest4 = [] then .ok (digitsToNat [y1, y2, y3, y4], m, d)
            else .error ("unconverted data remains: " ++ String.mk rest4)
          | none => fail
        | _ => fail
      | none => fail
    else fail
  | _ => fail

/-- `Field.date` of `src/lib/tri/form/__init__.py` (lines 348-356): a single
strptime with format `%Y-%m-%d`; any `ValueError` message is re-raised as
the validation error.  Note: a single fixed format, not a list of formats. -/
def form_parse_date (s : String) : Except String (Nat × Nat × Nat) := do
  let (y, m, d) ← strptime_date s
  if d ≤ daysInMonth y m then .ok (y, m, d)
  else .error "day is out of range for month"

/-- `datetime.strptime(s, "%Y-%m-%d %H:%M:%S")` followed by the constructor
range check, as in `Field.datetime` of `src/lib/tri/form/__init__.py`
(lines 338-346). -/
def form_parse_datetime (s : String) : Except String (Nat × Nat × Nat × Nat × Nat × Nat) :=
  let fail : Except String (Nat × Nat × Nat × Nat × Nat × Nat) :=
    .error ("time data \"" ++ s ++ "\" does not match format \"%Y-%m-%d %H:%M:%S\"")
  match s.data with
  | y1 :: y2 :: y3 :: y4 :: '-' :: rest =>
    if y1.isDigit ∧ y2.isDigit ∧ y3.isDigit ∧ y4.isDigit then
      match matchMonth rest with
      | some (m, rest2) =>
        match rest2 with
        | '-' :: rest3 =>
          match matchDay rest3 with
          | some (d, rest4) =>
            match rest4 with
            | ' ' :: rest5 =>
              match matchHour rest5 with
              | some (hh, rest6) =>
                match rest6 with
                | ':' :: rest7 =>
                  match matchMinSec rest7 with
                  | some (mm, rest8) =>
                    match rest8 with
                    | ':' :: rest9 =>
                      match matchMinSec rest9 with
                      | some (ss, rest10) =>
                        if rest10 = [] then
                          if d ≤ daysInMonth (digitsToNat [y1, y2, y3, y4]) m then
                            .ok (digitsToNat [y1, y2, y3, y4], m, d, hh, mm, ss)
                          else .error "day is out of range for month"
                        else .error ("unconverted data remains: " ++ String.mk rest10)
                      | none => fail
                    | _ => fail
                  | none => fail
                | _ => fail
              | none => fail
            | _ => fail
          | none => fail
        | _ => fail
      | none => fail
    else fail
  | _ => fail

/-- Python `int(s)`: an optional sign followed by base-10 digits.  Python
renders the failure message with the value in quotes-with-apostrophes; this
model drops the quoting, which no claim depends on. -/
def str_to_int (s : String) : Except String Int :=
  let err : Except String Int :=
    .error ("invalid literal for int() with base 10: " ++ s)
  match s.data with
  | [] => err
  | '-' :: ds =>
    if ds ≠ [] ∧ ds.all (·.isDigit) then .ok (-(digitsToNat ds : Int)) else err
  | '+' :: ds =>
    if ds ≠ [] ∧ ds.all (·.isDigit) then .ok ((digitsToNat ds : Int)) else err
  | ds =>
    if ds.all (·.isDigit) then .ok ((digitsToNat ds : Int)) else err

/-! ## Lowering (spec section 4.5)

Modelled from the spec: `iommi/query.py` is absent from `src/`; the
operator table below is the spec section 4.5 table, which the in-tree test
`test_ops` pins lookup by lookup (`>`/gt, `=>`/gte, `>=`/gte, `<`/lt,
`<=`/lte, `=<`/lte, `=`/iexact, `:`/icontains), with `test_negation`
pinning `!=` and `!:` as the negations and `Variable.case_sensitive`
switching `=`/`:` to exact/contains. -/

/-- AST operator to backend operator, default (case-insensitive) table.
The aliases `=<` and `=>` map to the same backend operators as `<=` and
`>=`. -/
def q_op_by_op : String → Option QOp
  | "=" => some .iexact
  | ":" => some .icontains
  | "<" => some .lt
  | "<=" => some .lte
  | "=<" => some .lte
  | ">" => some .gt
  | ">=" => some .gte
  | "=>" => some .gte
  | _ => none

/-- Case-sensitive variant: `=` and `:` switch to the case-sensitive
lookups, the ordering operators are unchanged. -/
def cs_q_op_by_op : String → Option QOp
  | "=" => some .exact
  | ":" => some .contains
  | o => q_op_by_op o

/-- The null collapse: a null value, or the string value `null` (a quoted
`"null"` literal, or the text `null` arriving through the simple form),
compares directly against null with no operator suffix.  Attested by
`test_null` (`foo_name=null` gives `Q(foo=None)`) and by
`test_choice_queryset` (`foo="null"` gives `Q(foo=None)`). -/
def is_null_value : Value → Bool
  | .vnull => true
  | .vstr s => s == "null"
  | _ => false

/-- Lower one comparison to a backend predicate leaf once the variable is
resolved and the value coerced (spec section 4.5 step 4).  `!=` and `!:`
strip to `=` / `:` and negate the resulting leaf.  A variable with no
backend attribute contributes the identity predicate (`test_none_attr`). -/
def value_to_q (var : Variable) (opName : String) (v : Value) : Except String Pred :=
  match var.attr with
  | none => .ok .tt
  | some attr =>
    let negated := opName == "!=" || opName == "!:"
    let bare := if opName = "!=" then "=" else if opName = "!:" then ":" else opName
    let core : Except String Pred :=
      if is_null_value v then .ok (.leaf attr none .vnull)
      else
        match (if var.caseSensitive then cs_q_op_by_op bare else q_op_by_op bare) with
        | some q => .ok (.leaf attr (some q) v)
        | none => .error ("Unknown operator \"" ++ opName ++ "\"")
    (fun p => if negated then Pred.not p else p) <$> core

/-- Operator legality per variable kind (spec section 3): `choice`,
`reference`, `choice-set` and `boolean` admit only `=` / `!=` (the
`Invalid operator` loop of `test_choice_queryset`); numeric and date kinds
forbid the containment operators; string kinds admit everything. -/
def op_allowed (k : Kind) (opName : String) : Bool :=
  match k with
  | .choice => opName == "=" || opName == "!="
  | .reference => opName == "=" || opName == "!="
  | .choiceSet => opName == "=" || opName == "!="
  | .boolean => opName == "=" || opName == "!="
  | .integer => !(opName == ":" || opName == "!:")
  | .float => !(opName == ":" || opName == "!:")
  | .date => !(opName == ":" || opName == "!:")
  | .datetime => !(opName == ":" || opName == "!:")
  | .string => true

def findVar (vars : List Variable) (n : String) : Option Variable :=
  vars.find? (fun v => v.name == n)

/-- Calendar range check for a date literal of the advanced query (the
`datetime.date` constructor): `test_date_out_of_range` pins that
`2014-03-37` reports an out-of-range day. -/
def mkDateValue (y m d : Nat) : Except String Value :=
  if 1 ≤ m ∧ m ≤ 12 then
    if 1 ≤ d ∧ d ≤ daysInMonth y m then .ok (.vdate y m d)
    else .error "day is out of range for month"
  else .error "month must be in 1..12"

/-- Textual value coercion against a variable (spec section 4.3).  A string
equal to `null` collapses to the null value before any kind-specific
handling (so a choice lookup is bypassed, as in `test_choice_queryset`). -/
def coerceText (var : Variable) (s : String) : Except String Value :=
  if s = "null" then .ok .vnull
  else
    match var.kind with
    | .boolean => (bool_parse s).map .vbool
    | .choice =>
      if s ∈ var.choices then .ok (.vstr s)
      else .error ("Unknown value \"" ++ s ++ "\" for variable \"" ++ var.name ++ "\"")
    | .reference =>
      if s ∈ var.choices then .ok (.vstr s)
      else .error ("Unknown value \"" ++ s ++ "\" for variable \"" ++ var.name ++ "\"")
    | .choiceSet =>
      if s ∈ var.choices then .ok (.vstr s)
      else .error ("Unknown value \"" ++ s ++ "\" for variable \"" ++ var.name ++ "\"")
    | .integer => (str_to_int s).map .vint
    | .float => .ok (.vnum s)
    | .date => (form_parse_date s).map (fun p => .vdate p.1 p.2.1 p.2.2)
    | .datetime =>
      (form_parse_datetime s).map (fun p => .vdatetime p.1 p.2.1 p.2.2.1 p.2.2.2.1 p.2.2.2.2.1 p.2.2.2.2.2)
    | .string => .ok (.vstr s)

/-- Coerce a parsed value token against the resolved variable (spec
section 4.3).  An identifier that names another declared variable becomes a
reference to that variable's backend column
(`test_self_reference_with_f_object`); any other identifier is handled like
quoted text. -/
def coerce_value (vars : List Variable) (var : Variable) : Token → Except String Value
  | .str s => coerceText var s
  | .ident s =>
    (match findVar vars s with
     | some v2 =>
       match v2.attr with
       | some a => .ok (.vref a)
       | none => .ok (.vref s)
     | none => coerceText var s)
  | .num s =>
    (match var.kind with
     | .boolean => (bool_parse s).map .vbool
     | .choice =>
       if s ∈ var.choices then .ok (.vstr s)
       else .error ("Unknown value \"" ++ s ++ "\" for variable \"" ++ var.name ++ "\"")
     | .reference =>
       if s ∈ var.choices then .ok (.vstr s)
       else .error ("Unknown value \"" ++ s ++ "\" for variable \"" ++ var.name ++ "\"")
     | .choiceSet =>
       if s ∈ var.choices then .ok (.vstr s)
       else .error ("Unknown value \"" ++ s ++ "\" for variable \"" ++ var.name ++ "\"")
     | _ => .ok (.vnum s))
  | .date y m d => mkDateValue y m d
  | .knull => .ok .vnull
  | _ => .error "Invalid syntax for query"

/-- Lower one comparison (spec section 4.5): resolve the variable, check
operator legality, coerce the value, emit the leaf.  Error messages are the
ones pinned by `test_unknown_field` and `test_choice_queryset`. -/
def lower_cmp (vars : List Variable) (n opName : String) (v : Token) : Except String Pred :=
  match findVar vars n with
  | none => .error ("Unknown variable \"" ++ n ++ "\"")
  | some var =>
    if op_allowed var.kind opName then do
      let val ← coerce_value vars var v
      value_to_q var opName val
    else .error ("Invalid operator \"" ++ opName ++ "\" for variable \"" ++ n ++ "\"")

/-- One containment leaf per freetext variable backed by a column:
case-insensitive contains unless the variable is case sensitive (spec
section 3 invariants; `test_freetext` / `test_request_to_q_freetext`). -/
def freetext_leaf (term : String) (v : Variable) : Option Pred :=
  match v.attr with
  | some a =>
    if v.freetext then
      some (.leaf a (some (if v.caseSensitive then .contains else .icontains)) (.vstr term))
    else none
  | none => none

/-- Left fold of OR, the empty disjunction being the identity predicate. -/
def disj : List Pred → Pred
  | [] => .tt
  | p :: ps => ps.foldl Pred.or p

/-- Left fold of AND, the empty conjunction being the identity predicate
(spec section 3: `And([])` collapses to `True`). -/
def conj : List Pred → Pred
  | [] => .tt
  | p :: ps => ps.foldl Pred.and p

/-- The freetext OR-group over the variables declared freetext. -/
def freetext_q (vars : List Variable) (term : String) : Pred :=
  disj (vars.filterMap (freetext_leaf term))

/-- Lower a parsed AST to a backend predicate; advanced mode fails fast on
the first error (spec section 7). -/
def compileAst (vars : List Variable) : Ast → Except String Pred
  | .cmp n o v => lower_cmp vars n o v
  | .and a b => do
    let p ← compileAst vars a
    let q ← compileAst vars b
    .ok (.and p q)
  | .or a b => do
    let p ← compileAst vars a
    let q ← compileAst vars b
    .ok (.or p q)
  | .not a => (fun p => Pred.not p) <$> compileAst vars a
  | .freetext s => .ok (freetext_q vars s)

/-- `Query.parse`: the empty (all-blank) query is the identity predicate
(`test_empty_string`); a lexer or grammar failure reports the single
message `Invalid syntax for query` (`test_invalid_syntax`); otherwise lower
the AST. -/
def parse_to_q (vars : List Variable) (input : String) : Except String Pred :=
  if input.data.all (fun c => c == ' ') then .ok .tt
  else
    match lex input with
    | none => .error "Invalid syntax for query"
    | some toks =>
      match parseTokens toks with
      | none => .error "Invalid syntax for query"
      | some ast => compileAst vars ast

/-! ## Simple-form compiler (spec section 4.4)

Modelled from the spec: `iommi/query.py` is absent from `src/`.  One point
where the spec text and the repository's tests disagree is decided by the
tests: `test_request_to_q_simple` and `test_escape_quote` show every
simple-mode leaf built with the `=` operator (string kinds lower to
`iexact`, case-sensitive strings to `exact`), not with `icontains` as spec
section 4.4 states for string kinds.  Coercion failures accumulate per
field and drop only that leaf (spec section 4.4 / 7,
`test_invalid_form_data`). -/

def FREETEXT_SEARCH_NAME : String := "term"

def getParam (params : List (String × String)) (k : String) : Option String :=
  (params.find? (fun p => p.1 == k)).map (fun p => p.2)

/-- Simple-mode value coercion per kind, using the form-level parsers of
`src/lib/tri/form/__init__.py`.  The choice message is pinned by
`test_endpoint_dispatch_errors` (`q not in available choices`). -/
def coerce_simple (var : Variable) (raw : String) : Except String Value :=
  match var.kind with
  | .integer => (str_to_int raw).map .vint
  | .boolean => (bool_parse raw).map .vbool
  | .date => (form_parse_date raw).map (fun p => .vdate p.1 p.2.1 p.2.2)
  | .datetime =>
    (form_parse_datetime raw).map (fun p => .vdatetime p.1 p.2.1 p.2.2.1 p.2.2.2.1 p.2.2.2.2.1 p.2.2.2.2.2)
  | .choice =>
    if raw ∈ var.choices then .ok (.vstr raw)
    else .error (raw ++ " not in available choices")
  | .reference =>
    if raw ∈ var.choices then .ok (.vstr raw)
    else .error (raw ++ " not in available choices")
  | .choiceSet =>
    if raw ∈ var.choices then .ok (.vstr raw)
    else .error (raw ++ " not in available choices")
  | _ => .ok (.vstr raw)

/-- The form-included variables that carry a non-empty value in the request,
in declaration order, paired with that raw value (spec sections 4.4 and 5:
conjunction order follows declaration order). -/
def simple_items (vars : List Variable) (params : List (String × String)) :
    List (Variable × String) :=
  vars.filterMap (fun v =>
    if v.formIncluded then
      match getParam params v.name with
      | some raw => if raw = "" then none else some (v, raw)
      | none => none
    else none)

/-- Per-field errors of simple mode, keyed by variable name (the
`fields[name]` bucket of spec section 7). -/
def simple_field_errors (vars : List Variable) (params : List (String × String)) :
    List (String × String) :=
  (simple_items vars params).filterMap (fun it =>
    match coerce_simple it.1 it.2 with
    | .error e => some (it.1.name, e)
    | .ok _ => none)

/-- Per-field leaves of simple mode: each surviving value lowers with the
`=` operator; a failing field is dropped. -/
def simple_preds (vars : List Variable) (params : List (String × String)) :
    List Pred :=
  (simple_items vars params).filterMap (fun it =>
    match coerce_simple it.1 it.2 with
    | .ok val =>
      match value_to_q it.1 "=" val with
      | .ok p => some p
      | .error _ => none
    | .error _ => none)

/-- The non-empty freetext term, when the request carries one. -/
def simple_term (params : List (String × String)) : Option String :=
  match getParam params FREETEXT_SEARCH_NAME with
  | some t => if t = "" then none else some t
  | none => none

/-- `to_q` in simple mode: AND of the per-field leaves and, when a freetext
term is present and some variable participates in freetext, the freetext
OR-group (spec section 4.4). -/
def simple_q (vars : List Variable) (params : List (String × String)) : Pred :=
  let ps := simple_preds vars params
  let ft :=
    match simple_term params with
    | some t => if vars.any (fun v => v.freetext) then [freetext_q vars t] else []
    | none => []
  conj (ps ++ ft)

/-! ## Reserialization (spec section 4.6) -/

/-- Escape every double quote of a string value as `\"` for the advanced
syntax (spec section 4.6; `test_escape_quote`). -/
def escape_quotes (s : String) : String :=
  String.mk (s.data.foldr (fun c acc => if c = '"' then '\\' :: '"' :: acc else c :: acc) [])

/-- Serialize one coerced value into the advanced-query syntax: string
values are double-quoted with embedded quotes escaped. -/
def value_to_qs_string (v : Value) : String :=
  match v with
  | .vstr s => "\"" ++ escape_quotes s ++ "\""
  | .vnum s => s
  | .vint n => toString n
  | .vbool b => if b then "1" else "0"
  | .vnull => "null"
  | .vdate y m d => toString y ++ "-" ++ toString m ++ "-" ++ toString d
  | .vdatetime y m d hh mm ss =>
    toString y ++ "-" ++ toString m ++ "-" ++ toString d ++ " " ++ toString hh ++ ":" ++ toString mm ++ ":" ++ toString ss
  | .vref a => a

/-- `to_query_string`: the canonical advanced-syntax rendition of the
current simple-mode state; per-field `name=value` parts joined by ` and `,
the freetext term rendered as a parenthesized OR of `name:value` over the
freetext variables (`test_escape_quote`, `test_escape_quote_freetext`).
Fields whose coercion failed are dropped (`test_invalid_form_data` expects
the empty string). -/
def to_query_string (vars : List Variable) (params : List (String × String)) : String :=
  let fieldParts := (simple_items vars params).filterMap (fun it =>
    match coerce_simple it.1 it.2 with
    | .ok val => some (it.1.name ++ "=" ++ value_to_qs_string val)
    | .error _ => none)
  let ftParts :=
    match simple_term params with
    | some t =>
      if vars.any (fun v => v.freetext) then
        ["(" ++ String.intercalate " or "
          ((vars.filter (fun v => v.freetext)).map
            (fun v => v.name ++ ":" ++ value_to_qs_string (.vstr t))) ++ ")"]
      else []
    | none => []
  String.intercalate " and " (fieldParts ++ ftParts)

/-! ## Concrete schemas from the test suite -/

/-- `MyTestQuery` of `src/tests/test_query.py`: `foo_name` (attr foo,
freetext, form-included), `bar_name` (case sensitive, attr bar, freetext,
form-included), `baz_name` (attr baz). -/
def foo_name_var : Variable :=
  { name := "foo_name", attr := some "foo", freetext := true, formIncluded := true }

def bar_name_var : Variable :=
  { name := "bar_name", attr := some "bar", caseSensitive := true, freetext := true, formIncluded := true }

def baz_name_var : Variable :=
  { name := "baz_name", attr := some "baz" }

def myTestQuery : List Variable := [foo_name_var, bar_name_var, baz_name_var]

/-- The boolean variable of `test_request_to_q_simple`
(`Variable.boolean(attr=quux__bar__bazaar, form__include=True)`). -/
def bazaar_bool_var : Variable :=
  { name := "bazaar", attr := some "quux__bar__bazaar", kind := .boolean, formIncluded := true }

/-- `Query2` of `test_request_to_q_simple`: `MyTestQuery` plus the boolean
`bazaar`. -/
def query2Vars : List Variable := myTestQuery ++ [bazaar_bool_var]

/-- The integer variable of `test_invalid_form_data`. -/
def bazaar_int_var : Variable :=
  { name := "bazaar", attr := some "quux__bar__bazaar", kind := .integer, formIncluded := true }

/-- Schema for claim C4: a well-behaved string variable alongside the
integer variable of `test_invalid_form_data`. -/
def c4Vars : List Variable := [foo_name_var, bazaar_int_var]

/-- `MyQuery` of `test_escape_quote`: one plain string variable named
`foo` (attr defaults to the name), form-included. -/
def escVars : List Variable :=
  [{ name := "foo", attr := some "foo", formIncluded := true }]

/-- `MyQuery` of `test_escape_quote_freetext`: one freetext string
variable named `foo`. -/
def escFtVars : List Variable :=
  [{ name := "foo", attr := some "foo", freetext := true }]

/-- The schema of `test_freetext_combined_with_other_stuff`: two freetext
variables and a form-included non-freetext one. -/
def ftcVars : List Variable :=
  [foo_name_var, bar_name_var,
   { name := "baz_name", attr := some "baz", formIncluded := true }]

/-- The choice variable of spec section 8 scenario 5 and (with a queryset
universe) of `test_choice_queryset`: choices `{a, b}`. -/
def choiceVars : List Variable :=
  [{ name := "foo", attr := some "foo", kind := .choice, formIncluded := true, choices := ["a", "b"] }]

/-- A date-kind variable for claim C8. -/
def dateVar : Variable :=
  { name := "when", attr := some "when", kind := .date, formIncluded := true }

/-- A datetime-kind variable for claim C8. -/
def dtVar : Variable :=
  { name := "when", attr := some "when", kind := .datetime, formIncluded := true }

/-- A plain string variable named `x`, parameterized by backend attribute
and case sensitivity, for the operator-table claim C2. -/
def c2var (attr : String) (cs : Bool) : Variable :=
  { name := "x", attr := some attr, caseSensitive := cs }

/-! ## Claims -/

/-- C1, counterexample.  The claim says a simple-mode submission
`{foo_name: "asd"}` against a string variable with attr `foo` lowers to a
case-insensitive-contains (`icontains`) predicate and not an equality; on
the modelled compiler (pinned by `test_request_to_q_simple` and
`test_escape_quote`, which expect `foo__iexact`) it lowers to the
case-insensitive equality `iexact`, which is an equality and is not the
claimed `icontains` leaf. -/
theorem C1_counterexample :
    simple_q myTestQuery [("foo_name", "asd")]
      = .leaf "foo" (some .iexact) (.vstr "asd")
    ∧ simple_q myTestQuery [("foo_name", "asd")]
      ≠ .leaf "foo" (some .icontains) (.vstr "asd") := by
  decide

/-- C1, amended.  In simple mode every form-included variable with a
non-empty value lowers with the `=` operator regardless of kind: string
kinds get case-insensitive equality (`iexact`), case-sensitive strings get
`exact`, and boolean (like numeric/choice/date) kinds also lower through
`=`; `{foo_name: "asd"}` therefore lowers to `iexact` on `foo`, not to a
contains predicate. -/
theorem C1_simple_default_op (s t b : String)
    (hs : s ≠ "") (hsn : s ≠ "null") (ht : t ≠ "") (htn : t ≠ "null")
    (hb : b ≠ "") (hbp : bool_parse b = .ok true) :
    simple_q query2Vars [("foo_name", s), ("bar_name", t), ("bazaar", b)]
      = .and (.and (.leaf "foo" (some .iexact) (.vstr s))
                   (.leaf "bar" (some .exact) (.vstr t)))
             (.leaf "quux__bar__bazaar" (some .iexact) (.vbool true)) := by
  simp [simple_q, simple_items, simple_preds, simple_term, getParam, query2Vars,
        myTestQuery, foo_name_var, bar_name_var, baz_name_var, bazaar_bool_var,
        coerce_simple, value_to_q, is_null_value, conj, hs, hsn, ht, htn, hb, hbp,
        q_op_by_op, cs_q_op_by_op, FREETEXT_SEARCH_NAME, Except.map,
        List.filterMap_cons]

/-- C1, witness at the inputs of `test_request_to_q_simple`. -/
theorem C1_simple_default_op_witness :
    simple_q query2Vars [("foo_name", "asd"), ("bar_name", "7"), ("bazaar", "true")]
      = .and (.and (.leaf "foo" (some .iexact) (.vstr "asd"))
                   (.leaf "bar" (some .exact) (.vstr "7")))
             (.leaf "quux__bar__bazaar" (some .iexact) (.vbool true)) :=
  C1_simple_default_op "asd" "7" "true" (by decide) (by decide) (by decide)
    (by decide) (by decide) (by decide)

/-- C2.  Advanced-mode lowering maps the AST operator to the backend
operator per the spec table: `=` to `iexact` (`exact` when the variable is
case sensitive), `:` to `icontains` (`contains` when case sensitive), `!=`
and `!:` to the negations of those, and `<`, `<=`, `=<`, `>`, `>=`, `=>`
to `lt`, `lte`, `lte`, `gt`, `gte`, `gte` regardless of case sensitivity,
the aliases `=<`/`=>` mapping to the same backend operators as `<=`/`>=`;
checked for an arbitrary attribute, case-sensitivity flag and non-null
string value, plus two whole-pipeline instances from `test_ops` and
`test_negation`. -/
theorem C2_advanced_op_mapping (a s : String) (cs : Bool) (hsn : s ≠ "null") :
    (lower_cmp [c2var a cs] "x" "=" (.str s)
      = .ok (.leaf a (some (if cs then QOp.exact else .iexact)) (.vstr s)))
    ∧ (lower_cmp [c2var a cs] "x" ":" (.str s)
      = .ok (.leaf a (some (if cs then QOp.contains else .icontains)) (.vstr s)))
    ∧ (lower_cmp [c2var a cs] "x" "!=" (.str s)
      = .ok (.not (.leaf a (some (if cs then QOp.exact else .iexact)) (.vstr s))))
    ∧ (lower_cmp [c2var a cs] "x" "!:" (.str s)
      = .ok (.not (.leaf a (some (if cs then QOp.contains else .icontains)) (.vstr s))))
    ∧ (lower_cmp [c2var a cs] "x" "<" (.str s) = .ok (.leaf a (some .lt) (.vstr s)))
    ∧ (lower_cmp [c2var a cs] "x" "<=" (.str s) = .ok (.leaf a (some .lte) (.vstr s)))
    ∧ (lower_cmp [c2var a cs] "x" "=<" (.str s) = .ok (.leaf a (some .lte) (.vstr s)))
    ∧ (lower_cmp [c2var a cs] "x" ">" (.str s) = .ok (.leaf a (some .gt) (.vstr s)))
    ∧ (lower_cmp [c2var a cs] "x" ">=" (.str s) = .ok (.leaf a (some .gte) (.vstr s)))
    ∧ (lower_cmp [c2var a cs] "x" "=>" (.str s) = .ok (.leaf a (some .gte) (.vstr s)))
    ∧ q_op_by_op "=<" = q_op_by_op "<=" ∧ q_op_by_op "=>" = q_op_by_op ">="
    ∧ parse_to_q myTestQuery "foo_name=>bar"
      = .ok (.leaf "foo" (some .gte) (.vstr "bar"))
    ∧ parse_to_q myTestQuery "foo_name!:\"asd\""
      = .ok (.not (.leaf "foo" (some .icontains) (.vstr "asd"))) := by
  refine ⟨?_, ?_, ?_, ?_, ?_, ?_, ?_, ?_, ?_, ?_, by decide, by decide, by decide, by decide⟩ <;>
    cases cs <;>
      simp [lower_cmp, findVar, c2var, op_allowed, coerce_value, coerceText,
            value_to_q, is_null_value, q_op_by_op, cs_q_op_by_op, hsn,
            Except.bind, bind]

/-- C2, witness at the input of `test_ops` (`foo_name:asd` shape). -/
theorem C2_advanced_op_mapping_witness :
    lower_cmp [c2var "foo" false] "x" "=" (.str "asd")
      = .ok (.leaf "foo" (some (if false then QOp.exact else .iexact)) (.vstr "asd")) :=
  (C2_advanced_op_mapping "foo" "asd" false (by decide)).1

/-- C5.  Applying any operator other than `=`/`!=` to a variable of a kind
that restricts operators (choice, reference, boolean) yields exactly the
single error `Invalid operator "OP" for variable "N"` and no predicate
(advanced mode fails fast, so the error result carries no leaves); the
whole-pipeline conjunct is spec section 8 scenario 5 (`foo<a` on a choice
variable with choices `{a, b}`). -/
theorem C5_operator_restriction (opName : String)
    (h : opName ∈ [":", "!:", "<", "<=", ">", ">="]) :
    (lower_cmp choiceVars "foo" opName (.ident "a")
      = .error ("Invalid operator \"" ++ opName ++ "\" for variable \"foo\""))
    ∧ op_allowed .choice opName = false
    ∧ op_allowed .reference opName = false
    ∧ op_allowed .boolean opName = false
    ∧ parse_to_q choiceVars "foo<a"
      = .error "Invalid operator \"<\" for variable \"foo\"" := by
  fin_cases h <;> exact ⟨by decide, by decide, by decide, by decide, by decide⟩

/-- C5, witness at the contains operator. -/
theorem C5_operator_restriction_witness :
    lower_cmp choiceVars "foo" ":" (.ident "a")
      = .error ("Invalid operator \"" ++ ":" ++ "\" for variable \"foo\"") :=
  (C5_operator_restriction ":" (by decide)).1

/-- C6.  `to_query_string` double-quotes string values and escapes each
embedded double quote as `\"`: the submitted one-character value `"` is
re-emitted as `foo="\""` (field case, `test_escape_quote`) and as
`(foo:"\"")` (freetext case, `test_escape_quote_freetext`), and parsing
each of those outputs lowers back to a predicate whose leaf value is the
one-character string `"`. -/
theorem C6_escape_roundtrip :
    to_query_string escVars [("foo", "\"")] = "foo=\"\\\"\""
    ∧ parse_to_q escVars "foo=\"\\\"\""
      = .ok (.leaf "foo" (some .iexact) (.vstr "\""))
    ∧ to_query_string escFtVars [("term", "\"")] = "(foo:\"\\\"\")"
    ∧ parse_to_q escFtVars "(foo:\"\\\"\")"
      = .ok (.leaf "foo" (some .icontains) (.vstr "\""))
    ∧ escape_quotes "a\"b" = "a\\\"b" := by
  decide

/-- C8, counterexample.  Date coercion does not report
`Time data "X" does not match any of the formats <list>` on every failure:
the in-tree `Field.date` (src/lib/tri/form/__init__.py lines 348-356) uses
the single strptime format `%Y-%m-%d`, so the simple-mode value
`2014-03-37` against a date variable fails with
`unconverted data remains: 7`, and the advanced parser
(`test_date_out_of_range`) reports the calendar range error
`day is out of range for month` for the same text; neither message has the
claimed `Time data ...` form. -/
theorem C8_counterexample :
    coerce_simple dateVar "2014-03-37" = .error "unconverted data remains: 7"
    ∧ List.isPrefixOf "Time data".data "unconverted data remains: 7".data = false
    ∧ parse_to_q myTestQuery "foo_name=2014-03-37"
      = .error "day is out of range for month"
    ∧ List.isPrefixOf "Time data".data "day is out of range for month".data = false := by
  decide

/-- C8, amended.  Date coercion tries the single strptime format
`%Y-%m-%d` (datetime `%Y-%m-%d %H:%M:%S`) and reports the underlying
error: a shape mismatch reports the strptime
`time data "X" does not match format "F"` message, trailing unmatched text
reports `unconverted data remains: ...` (the well-formed but out-of-range
`2014-03-37` takes this path, `37` matching as day `3` with `7` left
over), and a date literal of the advanced query reports the calendar range
error containing `out of range`, as `test_date_out_of_range` asserts. -/
theorem C8_date_single_format :
    coerce_simple dateVar "2014-03-07" = .ok (.vdate 2014 3 7)
    ∧ coerce_simple dateVar "2014-03-37" = .error "unconverted data remains: 7"
    ∧ strptime_date "asd"
      = .error "time data \"asd\" does not match format \"%Y-%m-%d\""
    ∧ coerce_simple dtVar "2014-03-07 12:13:14" = .ok (.vdatetime 2014 3 7 12 13 14)
    ∧ parse_to_q myTestQuery "foo_name=2014-03-37"
      = .error "day is out of range for month"
    ∧ parse_to_q myTestQuery "foo_name=2014-03-07"
      = .ok (.leaf "foo" (some .iexact) (.vdate 2014 3 7)) := by
  decide

/-- C9.  For any string-kind variable, the advanced query `x="null"` (the
quoted four-character string) lowers to exactly the predicate of `x=null`:
a direct equality-with-null leaf with no case-insensitive modifier (no
operator suffix at all); checked for an arbitrary string variable and on
the whole pipeline at the inputs of `test_null` and of the
`foo="null"` line of `test_choice_queryset`.  Since both queries produce
the null comparison, no advanced query reaches a leaf whose value is the
literal string `null`. -/
theorem C9_quoted_null (n a : String) (cs ft fi : Bool) (ch : List String) :
    lower_cmp [{ name := n, attr := some a, kind := .string, caseSensitive := cs,
                 freetext := ft, formIncluded := fi, choices := ch }] n "=" (.str "null")
      = .ok (.leaf a none .vnull)
    ∧ lower_cmp [{ name := n, attr := some a, kind := .string, caseSensitive := cs,
                   freetext := ft, formIncluded := fi, choices := ch }] n "=" .knull
      = .ok (.leaf a none .vnull)
    ∧ parse_to_q myTestQuery "foo_name=\"null\"" = parse_to_q myTestQuery "foo_name=null"
    ∧ parse_to_q myTestQuery "foo_name=null" = .ok (.leaf "foo" none .vnull) := by
  refine ⟨?_, ?_, by decide, by decide⟩ <;>
    simp [lower_cmp, findVar, op_allowed, coerce_value, coerceText, value_to_q,
          is_null_value, Except.bind, bind]

/-- C3.  With a freetext term `X` present, the simple-mode predicate is the
AND of the per-field leaves with the freetext OR-group, where the OR-group
holds exactly one contains-`X` leaf per `freetext = true` variable
(`icontains`, or `contains` for a case-sensitive variable); the
non-freetext `baz_name` appears only as a per-field leaf, never inside the
disjunction.  Schema of `test_freetext_combined_with_other_stuff`,
universal in the term and field value. -/
theorem C3_freetext_conjunction (x v : String) (hx : x ≠ "") (hv : v ≠ "")
    (hvn : v ≠ "null") :
    simple_q ftcVars [("term", x), ("baz_name", v)]
      = .and (.leaf "baz" (some .iexact) (.vstr v))
             (.or (.leaf "foo" (some .icontains) (.vstr x))
                  (.leaf "bar" (some .contains) (.vstr x)))
    ∧ simple_q ftcVars [("term", x)]
      = .or (.leaf "foo" (some .icontains) (.vstr x))
            (.leaf "bar" (some .contains) (.vstr x))
    ∧ freetext_q ftcVars x
      = .or (.leaf "foo" (some .icontains) (.vstr x))
            (.leaf "bar" (some .contains) (.vstr x)) := by
  refine ⟨?_, ?_, ?_⟩ <;>
    simp [simple_q, simple_items, simple_preds, simple_term, getParam, ftcVars,
          foo_name_var, bar_name_var, coerce_simple, value_to_q, is_null_value,
          freetext_q, freetext_leaf, disj, conj, FREETEXT_SEARCH_NAME,
          q_op_by_op, List.filterMap_cons, hx, hv, hvn]

/-- C3, witness at the inputs of `test_freetext_combined_with_other_stuff`. -/
theorem C3_freetext_conjunction_witness :
    simple_q ftcVars [("term", "asd"), ("baz_name", "123")]
      = .and (.leaf "baz" (some .iexact) (.vstr "123"))
             (.or (.leaf "foo" (some .icontains) (.vstr "asd"))
                  (.leaf "bar" (some .contains) (.vstr "asd"))) :=
  (C3_freetext_conjunction "asd" "123" (by decide) (by decide) (by decide)).1

/-- C4.  A failing simple-mode coercion records the error under the
variable's name, drops only that leaf, and raises nothing (the compiler is
a total function into predicate-plus-errors); the surviving leaves still
compose, and when every leaf is dropped `to_q` is the universal predicate
and `to_query_string` the empty string (`test_invalid_form_data`).
Universal in the failing and surviving values. -/
theorem C4_lenient_simple (bad s e : String) (hbne : bad ≠ "")
    (hbad : str_to_int bad = .error e) (hs : s ≠ "") (hsn : s ≠ "null") :
    simple_field_errors c4Vars [("foo_name", s), ("bazaar", bad)] = [("bazaar", e)]
    ∧ simple_q c4Vars [("foo_name", s), ("bazaar", bad)]
      = .leaf "foo" (some .iexact) (.vstr s)
    ∧ simple_q [bazaar_int_var] [("bazaar", bad)] = .tt
    ∧ to_query_string [bazaar_int_var] [("bazaar", bad)] = ""
    ∧ simple_field_errors [bazaar_int_var] [("bazaar", bad)] = [("bazaar", e)] := by
  refine ⟨?_, ?_, ?_, ?_, ?_⟩ <;>
    simp [simple_field_errors, simple_q, simple_items, simple_preds, simple_term,
          to_query_string, getParam, c4Vars, foo_name_var, bazaar_int_var,
          coerce_simple, value_to_q, is_null_value, conj, FREETEXT_SEARCH_NAME,
          q_op_by_op, List.filterMap_cons, Except.map, String.intercalate,
          hbne, hbad, hs, hsn]

/-- C4, witness at the input of `test_invalid_form_data`. -/
theorem C4_lenient_simple_witness :
    simple_q [bazaar_int_var] [("bazaar", "asds")] = .tt ∧
      to_query_string [bazaar_int_var] [("bazaar", "asds")] = "" :=
  ⟨(C4_lenient_simple "asds" "x" "invalid literal for int() with base 10: asds"
      (by decide) (by decide) (by decide) (by decide)).2.2.1,
   (C4_lenient_simple "asds" "x" "invalid literal for int() with base 10: asds"
      (by decide) (by decide) (by decide) (by decide)).2.2.2.1⟩

/-- C7.  In the advanced parser `and` binds tighter than `or`, the logical
operators are left-associative, and parentheses override precedence: for
arbitrary comparisons `a`, `b`, `c` (identifier, operator, value-token
triples), `a and b or c` parses to `(a AND b) OR c`, `a or b and c` to
`a OR (b AND c)`, and `a and (b or c)` to `a AND (b OR c)`; the two
whole-pipeline conjuncts are the concrete inputs of `test_precedence` and
`test_parenthesis`. -/
theorem C7_precedence (n1 n2 n3 o1 o2 o3 : String) (v1 v2 v3 : Token)
    (h1 : isValueTok v1 = true) (h2 : isValueTok v2 = true)
    (h3 : isValueTok v3 = true) :
    parseTokens [.ident n1, .op o1, v1, .kand, .ident n2, .op o2, v2, .kor,
                 .ident n3, .op o3, v3]
      = some (.or (.and (.cmp n1 o1 v1) (.cmp n2 o2 v2)) (.cmp n3 o3 v3))
    ∧ parseTokens [.ident n1, .op o1, v1, .kor, .ident n2, .op o2, v2, .kand,
                   .ident n3, .op o3, v3]
      = some (.or (.cmp n1 o1 v1) (.and (.cmp n2 o2 v2) (.cmp n3 o3 v3)))
    ∧ parseTokens [.ident n1, .op o1, v1, .kand, .lparen, .ident n2, .op o2, v2,
                   .kor, .ident n3, .op o3, v3, .rparen]
      = some (.and (.cmp n1 o1 v1) (.or (.cmp n2 o2 v2) (.cmp n3 o3 v3)))
    ∧ parse_to_q myTestQuery "foo_name=\"asd\" and bar_name = 7 or baz_name = 11"
      = .ok (.or (.and (.leaf "foo" (some .iexact) (.vstr "asd"))
                       (.leaf "bar" (some .exact) (.vnum "7")))
                 (.leaf "baz" (some .iexact) (.vnum "11")))
    ∧ parse_to_q myTestQuery "foo_name=\"asd\" and (bar_name = 7 or baz_name = 11)"
      = .ok (.and (.leaf "foo" (some .iexact) (.vstr "asd"))
                  (.or (.leaf "bar" (some .exact) (.vnum "7"))
                       (.leaf "baz" (some .iexact) (.vnum "11")))) := by
  refine ⟨?_, ?_, ?_, by decide, by decide⟩ <;>
    simp [parseTokens, parseOrE, parseOrTail, parseAndE, parseAndTail,
          parseNotE, parseAtomE, h1, h2, h3]

/-- C7, witness at the comparisons of `test_precedence`. -/
theorem C7_precedence_witness :
    parseTokens [.ident "foo_name", .op "=", .str "asd", .kand, .ident "bar_name",
                 .op "=", .num "7", .kor, .ident "baz_name", .op "=", .num "11"]
      = some (.or (.and (.cmp "foo_name" "=" (.str "asd"))
                        (.cmp "bar_name" "=" (.num "7")))
                  (.cmp "baz_name" "=" (.num "11"))) :=
  (C7_precedence "foo_name" "bar_name" "baz_name" "=" "=" "=" (.str "asd")
    (.num "7") (.num "11") (by decide) (by decide) (by decide)).1

/-- A quote- and backslash-free body followed by the closing quote scans to
exactly that body. -/
theorem scanQuoted_clean (cs : List Char) (h : ∀ c ∈ cs, c ≠ '"' ∧ c ≠ '\\') :
    scanQuoted (cs ++ ['"']) = some (cs, []) := by
  induction cs with
  | nil => simp [scanQuoted]
  | cons c cs ih =>
    have hc := h c (by simp)
    have ih2 := ih (fun d hd => h d (by simp [hd]))
    rw [List.cons_append, scanQuoted.eq_def]
    simp [hc.1, hc.2, ih2]

/-- One lexer step on a double quote hands the tail to the string
scanner. -/
theorem lexLoop_quote (f : Nat) (cs : List Char) :
    lexLoop (f + 1) ('"' :: cs) =
      match scanQuoted cs with
      | some (s, rest) => (Token.str (String.mk s) :: ·) <$> lexLoop f rest
      | none => none := rfl

/-- Lexing a bare double-quoted literal yields the single string token. -/
theorem lex_bare_string (x : String) (h : ∀ c ∈ x.data, c ≠ '"' ∧ c ≠ '\\') :
    lex ("\"" ++ x ++ "\"") = some [Token.str x] := by
  have hdata : ("\"" ++ x ++ "\"").data = '"' :: (x.data ++ ['"']) := by
    simp [String.data_append]
  rw [lex, hdata]
  have hlen : ('"' :: (x.data ++ ['"'])).length + 1 = (x.data.length + 2) + 1 := by
    simp
  rw [hlen, lexLoop_quote, scanQuoted_clean x.data h]
  rfl

/-- With the request carrying only the freetext term, no form-included
variable picks up a value (no variable is named like the reserved term
key). -/
theorem simple_items_term_only (vars : List Variable) (x : String)
    (hname : ∀ v ∈ vars, v.name ≠ FREETEXT_SEARCH_NAME) :
    simple_items vars [(FREETEXT_SEARCH_NAME, x)] = [] := by
  induction vars with
  | nil => simp [simple_items]
  | cons v vs ih =>
    have h1 : FREETEXT_SEARCH_NAME ≠ v.name := fun hh => hname v (by simp) hh.symm
    have ih2 := ih (fun d hd => hname d (by simp [hd]))
    simpa [simple_items, List.filterMap_cons, getParam, h1] using ih2

/-- C10.  For a schema with at least one freetext variable, a bare quoted
string literal `"X"` — which carries no identifier and no operator and is
not produced by the spec's published `atom` grammar — nevertheless parses,
and lowers to exactly the freetext OR-group `freetext_q vars X` (one
contains leaf per freetext variable, case-insensitive unless the variable
is case sensitive), identical to the predicate of a simple-mode submission
of `X` as the freetext term (`test_freetext`). -/
theorem C10_bare_string_freetext (vars : List Variable) (x : String)
    (hft : vars.any (fun v => v.freetext) = true)
    (hx : x ≠ "")
    (hname : ∀ v ∈ vars, v.name ≠ FREETEXT_SEARCH_NAME)
    (hchars : ∀ c ∈ x.data, c ≠ '"' ∧ c ≠ '\\') :
    parse_to_q vars ("\"" ++ x ++ "\"") = .ok (freetext_q vars x)
    ∧ simple_q vars [(FREETEXT_SEARCH_NAME, x)] = freetext_q vars x := by
  constructor
  · have hdata : ("\"" ++ x ++ "\"").data = '"' :: (x.data ++ ['"']) := by
      simp [String.data_append]
    have hblank : (("\"" ++ x ++ "\"").data.all (fun c => c == ' ')) = false := by
      rw [hdata]; simp
    rw [parse_to_q, hblank, lex_bare_string x hchars]
    simp [parseTokens, parseOrE, parseOrTail, parseAndE, parseAndTail, parseNotE,
          parseAtomE, compileAst]
  · simp [simple_q, simple_preds, simple_items_term_only vars x hname,
          simple_term, getParam, hx, hft, conj]

/-- C10, witness at the schema and term of `test_freetext`. -/
theorem C10_bare_string_freetext_witness :
    parse_to_q myTestQuery "\"asd\"" = .ok (freetext_q myTestQuery "asd") :=
  (C10_bare_string_freetext myTestQuery "asd" (by decide) (by decide)
    (by decide) (by decide)).1

end Iommi
